import Mathlib

/-
Verification development for the Cryptocurrency-Analysis-Python repository.

The two source scripts (Cryptocurrency-Pricing-Analysis.py and
crypto-tutorial.py) drive a pandas-based pipeline.  This file shallowly
embeds the pandas operations the scripts use, at the granularity the
scripts use them:

  * a pandas Series is an association list of (timestamp, value) entries,
    where a value is `Option ℚ` (`none` models NaN / missing);
  * a pandas DataFrame is a shared row index (timestamps, as `ℚ`) together
    with labelled columns of `Option ℚ` cells;
  * float arithmetic is idealised as exact `ℚ` arithmetic; float NaN is
    `none`; a division whose denominator is zero (float inf/NaN artifacts)
    is modelled as `none`;
  * the pickle cache is a string-keyed store whose entries can be absent,
    unreadable at the OS level, readable-but-corrupt, or valid; Python
    exceptions are the `PyExc` type, and a function that can raise returns
    `Except PyExc _`.

Each claim about the scripts is then stated and settled against these
definitions.
-/

namespace Crypto

/-- Python exceptions that the modelled code paths can raise.
`osErr`/`ioErr` model `OSError`/`IOError` from `open` (file absent or
unreadable), `unpicklingErr` models `pickle.UnpicklingError` (and the other
non-OSError exceptions a corrupt pickle raises, e.g. `EOFError`),
`fetchErr` models the exception a failed `quandl.get`/`pd.read_json`
raises (network error, unparseable response, rate limit), `keyErr` models
`KeyError` (missing column), `indexErr` models `IndexError` (list index
out of range), and `typeErr` stands for behaviour outside this embedding
(a NaN entry used as an index value). -/
inductive PyExc where
  | osErr
  | ioErr
  | unpicklingErr
  | fetchErr
  | keyErr
  | indexErr
  | typeErr
deriving DecidableEq, Repr

/-- A pandas Series: ordered (timestamp, value) entries; `none` is NaN. -/
structure Series where
  entries : List (ℚ × Option ℚ)
deriving DecidableEq, Repr

/-- A pandas DataFrame: a row index of timestamps and labelled columns.
Column `cols[i].2` lists the cell values aligned with `index`. -/
structure DataFrame where
  index : List ℚ
  cols : List (String × List (Option ℚ))
deriving DecidableEq, Repr

/-- First-match association lookup on (timestamp, value) entries. -/
def lookupKey : List (ℚ × Option ℚ) → ℚ → Option ℚ
  | [], _ => none
  | e :: es, t => if e.1 = t then e.2 else lookupKey es t

/-- Value of a Series at a timestamp; `none` when the timestamp is absent
from the index or its stored value is NaN. -/
def Series.val (s : Series) (t : ℚ) : Option ℚ :=
  lookupKey s.entries t

/-- The timestamps of a Series (its index), NaN-valued entries included. -/
def Series.keys (s : Series) : List ℚ :=
  s.entries.map (fun e => e.1)

/-- First-match association lookup on labelled columns. -/
def lookupCol : List (String × List (Option ℚ)) → String → Option (List (Option ℚ))
  | [], _ => none
  | e :: es, l => if e.1 = l then some e.2 else lookupCol es l

/-- Column access `df[l]` as raw cell list; `none` models `KeyError`. -/
def DataFrame.getCol (df : DataFrame) (l : String) : Option (List (Option ℚ)) :=
  lookupCol df.cols l

/-- Column access `df[l]` as a pandas Series carrying the frame's index. -/
def extractCol (df : DataFrame) (col : String) : Option Series :=
  (df.getCol col).map (fun c => ⟨df.index.zip c⟩)

/-- Column extraction with a default, for stating conclusions whose
hypotheses guarantee the column exists. -/
def colSeriesD (df : DataFrame) (col : String) : Series :=
  (extractCol df col).getD ⟨[]⟩

/-- Whether a labelled-column list already has a column labelled `l`. -/
def hasCol : List (String × List (Option ℚ)) → String → Bool
  | [], _ => false
  | e :: es, l => if e.1 = l then true else hasCol es l

/-- Column assignment `df[l] = s` (pandas semantics): the series is
aligned to the frame's EXISTING index — timestamps of `s` that are not in
`df.index` are dropped, timestamps of `df.index` missing from `s` get NaN.
An existing column with that label is overwritten in place, otherwise the
column is appended. -/
def DataFrame.setCol (df : DataFrame) (l : String) (s : Series) : DataFrame :=
  let vals := df.index.map (fun t => s.val t)
  if hasCol df.cols l then
    ⟨df.index, df.cols.map (fun e => if e.1 = l then (l, vals) else e)⟩
  else
    ⟨df.index, df.cols ++ [(l, vals)]⟩

/-- Insert a timestamp into an ascending duplicate-free list, keeping it
ascending and duplicate-free. -/
def insertSorted (t : ℚ) : List ℚ → List ℚ
  | [] => [t]
  | x :: xs => if t < x then t :: x :: xs else if t = x then x :: xs else x :: insertSorted t xs

/-- Sorted, deduplicated list of all timestamps occurring in `l` (the
sorted union that pandas builds when aligning indexes). -/
def sortedUnion (l : List ℚ) : List ℚ :=
  l.foldr insertSorted []

/-- Whether a (label, series) dict already binds key `k`. -/
def hasKey : List (String × Series) → String → Bool
  | [], _ => false
  | e :: es, k => if e.1 = k then true else hasKey es k

/-- Python dict assignment `d[k] = v`: an existing binding keeps its
position but takes the new value; a fresh key is appended. -/
def dictInsert (d : List (String × Series)) (k : String) (v : Series) : List (String × Series) :=
  if hasKey d k then d.map (fun e => if e.1 = k then (k, v) else e) else d ++ [(k, v)]

/-- `pd.DataFrame(series_dict)`: the row index is the sorted union of all
the series' timestamps (outer join); each column holds each series' value
at each union timestamp, NaN where the series lacks the timestamp. -/
def pdDataFrame (d : List (String × Series)) : DataFrame :=
  let idx := sortedUnion ((d.map (fun e => e.2.keys)).flatten)
  ⟨idx, d.map (fun e => (e.1, idx.map (fun t => e.2.val t)))⟩

namespace Analysis

/-- Loop body of `merge_dfs_on_column` (Cryptocurrency-Pricing-Analysis.py
lines 164-170): for each position, evaluate `dataframes[index][col]`
(KeyError if the column is missing), then `labels[index]` (IndexError if
the label list is exhausted), then assign into the dict. -/
def mergeAux (col : String) : List DataFrame → List String → List (String × Series) →
    Except PyExc (List (String × Series))
  | [], _, acc => .ok acc
  | df :: dfs, ls, acc =>
    match extractCol df col with
    | none => .error .keyErr
    | some s =>
      match ls with
      | [] => .error .indexErr
      | l :: ls2 => mergeAux col dfs ls2 (dictInsert acc l s)

/-- `merge_dfs_on_column(dataframes, labels, col)` from
Cryptocurrency-Pricing-Analysis.py lines 164-170. -/
def merge_dfs_on_column (dfs : List DataFrame) (labels : List String) (col : String) :
    Except PyExc DataFrame :=
  (mergeAux col dfs labels []).map pdDataFrame

end Analysis

namespace Tutorial

/-- First loop of crypto-tutorial.py's `merge_dfs_on_column` (lines
122-132): extract `df[col]` from every frame. -/
def seriesArr (col : String) : List DataFrame → Except PyExc (List Series)
  | [] => .ok []
  | df :: dfs =>
    match extractCol df col with
    | none => .error .keyErr
    | some s => (seriesArr col dfs).map (fun rest => s :: rest)

/-- Second loop of crypto-tutorial.py's `merge_dfs_on_column`: pair the
extracted series with `labels[index]` in a dict. -/
def labelLoop : List Series → List String → List (String × Series) →
    Except PyExc (List (String × Series))
  | [], _, acc => .ok acc
  | _ :: _, [], _ => .error .indexErr
  | s :: ss, l :: ls, acc => labelLoop ss ls (dictInsert acc l s)

/-- `merge_dfs_on_column(dataframes, labels, col)` from crypto-tutorial.py
lines 122-132. -/
def merge_dfs_on_column (dfs : List DataFrame) (labels : List String) (col : String) :
    Except PyExc DataFrame :=
  (seriesArr col dfs).bind (fun arr => (labelLoop arr labels []).map pdDataFrame)

end Tutorial

/-- Cell transform of `df.replace(0, np.nan)` (line 261): an exact-zero
cell becomes NaN, every other cell (NaN included) is unchanged. -/
def replace0cell : Option ℚ → Option ℚ
  | none => none
  | some q => if q = 0 then none else some q

/-- `df.replace(0, np.nan)`: apply `replace0cell` to every cell; index and
labels unchanged. -/
def DataFrame.replace0 (df : DataFrame) : DataFrame :=
  ⟨df.index, df.cols.map (fun e => (e.1, e.2.map replace0cell))⟩

/-- The defined (non-NaN) cells of a row, in order. -/
def definedCells : List (Option ℚ) → List ℚ
  | [] => []
  | none :: vs => definedCells vs
  | some q :: vs => q :: definedCells vs

/-- Row mean ignoring NaN (`df.mean(axis=1)` cell, skipna default): the
arithmetic mean of the defined cells, NaN when no cell is defined. -/
def rowMean (row : List (Option ℚ)) : Option ℚ :=
  if definedCells row = [] then none
  else some ((definedCells row).sum / ((definedCells row).length : ℚ))

/-- Row `j` of a frame, as the list of its columns' cells at position `j`. -/
def DataFrame.rowAt (df : DataFrame) (j : ℕ) : List (Option ℚ) :=
  df.cols.map (fun e => (e.2[j]?).join)

/-- Entries of `df.mean(axis=1)`: position `j` of the index paired with the
NaN-ignoring mean of row `j`. -/
def meanEntries (df : DataFrame) : ℕ → List ℚ → List (ℚ × Option ℚ)
  | _, [] => []
  | j, t :: ts => (t, rowMean (df.rowAt j)) :: meanEntries df (j + 1) ts

/-- `df.mean(axis=1)` (line 279): the per-row NaN-ignoring mean, as a
Series on the frame's index. -/
def DataFrame.meanAxis1 (df : DataFrame) : Series :=
  ⟨meanEntries df 0 df.index⟩

/-- Pointwise product of two aligned series values at one timestamp:
NaN if either operand is NaN or absent. -/
def mulVal (a b : Series) (t : ℚ) : Option ℚ :=
  (a.val t).bind (fun x => (b.val t).map (fun y => x * y))

/-- Series multiplication `a * b` (pandas): align on the sorted union of
both indexes; each cell is the product, NaN propagating. -/
def mulSeries (a b : Series) : Series :=
  ⟨(sortedUnion (a.keys ++ b.keys)).map (fun t => (t, mulVal a b t))⟩

/-- Line 377: `altcoin_data[altcoin]['price_usd'] =
altcoin_data[altcoin]['weightedAverage'] * btc_usd_datasets['avg_btc_price_usd']`.
KeyError when the frame has no `weightedAverage` column. -/
def convertAltcoin (alt : DataFrame) (avg : Series) : Except PyExc DataFrame :=
  match alt.getCol ("weightedAverage") with
  | none => .error .keyErr
  | some c => .ok (alt.setCol ("price_usd") (mulSeries ⟨alt.index.zip c⟩ avg))

/-- State of one cached pickle file. -/
inductive CacheFile where
  | absent
  | unreadable
  | corrupt
  | valid (df : DataFrame)
deriving DecidableEq, Repr

/-- The on-disk pickle cache: path-keyed store of cache files. -/
abbrev Store := List (String × CacheFile)

/-- Read the cache file at a path; a missing binding is an absent file. -/
def storeGet : Store → String → CacheFile
  | [], _ => .absent
  | e :: es, k => if e.1 = k then e.2 else storeGet es k

/-- `df.to_pickle(path)`: overwrite or create the cache file at a path. -/
def storePut : Store → String → CacheFile → Store
  | [], k, v => [(k, v)]
  | e :: es, k, v => if e.1 = k then (k, v) :: es else e :: storePut es k v

/-- The try-block `open(cache_path, 'rb'); pickle.load(f)`: absent and
OS-unreadable files raise `OSError`/`IOError`; a readable file whose
contents do not deserialize raises `UnpicklingError`; a valid file yields
its dataframe. -/
def openAndLoad : CacheFile → Except PyExc DataFrame
  | .absent => .error .osErr
  | .unreadable => .error .ioErr
  | .corrupt => .error .unpicklingErr
  | .valid df => .ok df

/-- The cache path `'{}.pkl'.format(quandl_id).replace('/','-')` of
`get_quandl_data` (line 88). -/
def quandlCachePath (quandl_id : String) : String :=
  String.mk ((quandl_id ++ ".pkl").data.map (fun ch => if ch = '/' then '-' else ch))

/-- `get_quandl_data(quandl_id)` (lines 86-98) over an explicit cache
store and a remote oracle (`quandl.get`; `none` models a raised
exception).  Only `OSError`/`IOError` from the try-block trigger the
download branch; any other exception propagates.  The returned triple is
(dataframe, updated store, whether a cache write happened). -/
def get_quandl_data (rem : String → Option DataFrame) (store : Store) (quandl_id : String) :
    Except PyExc (DataFrame × Store × Bool) :=
  let cache_path := quandlCachePath quandl_id
  match openAndLoad (storeGet store cache_path) with
  | .ok df => .ok (df, store, false)
  | .error e =>
    if e = .osErr ∨ e = .ioErr then
      match rem quandl_id with
      | some df => .ok (df, storePut store cache_path (.valid df), true)
      | none => .error .fetchErr
    else .error e

/-- `get_json_data(json_url, cache_path)` (lines 306-317): identical
try/except structure, with `pd.read_json(json_url)` as the remote call
(`remote = none` models a raised exception). -/
def get_json_data (store : Store) (cache_path : String) (remote : Option DataFrame) :
    Except PyExc (DataFrame × Store × Bool) :=
  match openAndLoad (storeGet store cache_path) with
  | .ok df => .ok (df, store, false)
  | .error e =>
    if e = .osErr ∨ e = .ioErr then
      match remote with
      | some df => .ok (df, storePut store cache_path (.valid df), true)
      | none => .error .fetchErr
    else .error e

/-- The formatted Poloniex query URL (line 325/332), kept as the tuple of
its four format arguments. -/
def polo_url (pair : String) (startT endT period : ℕ) : String × ℕ × ℕ × ℕ :=
  (pair, startT, endT, period)

/-- `df.set_index('date')` (line 334): KeyError when the `date` column is
absent; otherwise that column becomes the index and is removed from the
columns.  A NaN entry in the date column is outside this embedding
(`typeErr`); the scripts' date columns are always fully defined. -/
def DataFrame.set_index_date (df : DataFrame) : Except PyExc DataFrame :=
  match df.getCol ("date") with
  | none => .error .keyErr
  | some c =>
    if c.all (fun v => v.isSome) then
      .ok ⟨definedCells c, df.cols.filter (fun e => !(e.1 == "date"))⟩
    else .error .typeErr

/-- `get_crypto_data(poloniex_pair)` (lines 330-335): builds the URL from
the pair and the query parameters, calls `get_json_data` with the PAIR
STRING as the cache path, then applies `set_index('date')`. -/
def get_crypto_data (oracle : String × ℕ × ℕ × ℕ → Option DataFrame) (store : Store)
    (pair : String) (startT endT period : ℕ) : Except PyExc (DataFrame × Store × Bool) :=
  match get_json_data store pair (oracle (polo_url pair startT endT period)) with
  | .error ex => .error ex
  | .ok (df, store2, wrote) =>
    match df.set_index_date with
    | .error ex => .error ex
    | .ok d2 => .ok (d2, store2, wrote)

/-- Forward fill (`Series.ffill`), carrying the last defined value into
NaN positions; leading NaNs stay NaN (`acc` starts as `none`). -/
def ffill : Option ℚ → List (Option ℚ) → List (Option ℚ)
  | _, [] => []
  | acc, v :: vs =>
    match v with
    | some q => some q :: ffill (some q) vs
    | none => acc :: ffill acc vs

/-- One-step percentage change against the previous value: the cell is
`(b - a) / a` when both the previous value `a` and the current value `b`
are defined, NaN otherwise.  A zero previous value (float inf/NaN) is
modelled as NaN. -/
def diffStep : Option ℚ → List (Option ℚ) → List (Option ℚ)
  | _, [] => []
  | prev, v :: vs =>
    (match prev, v with
     | some a, some b => if a = 0 then none else some ((b - a) / a)
     | _, _ => none) :: diffStep v vs

/-- One column of pandas `df.pct_change()` with its DEFAULT
`fill_method='pad'`: forward-fill first, then take percentage changes.
The first row has no previous value and is NaN. -/
def pandasPctChangeCol (c : List (Option ℚ)) : List (Option ℚ) :=
  diffStep none (ffill none c)

/-- Modelled from the spec: Correlation Engine step 2, the detrend
transform `r[t] = (v[t] - v[t-1]) / v[t-1]` applied directly to the
column, the first row of the window becoming undefined, with no
forward-filling of gaps. -/
def specPctChangeCol (c : List (Option ℚ)) : List (Option ℚ) :=
  diffStep none c

/-- `df.pct_change()` on every column; index and labels unchanged. -/
def dfPctChange (df : DataFrame) : DataFrame :=
  ⟨df.index, df.cols.map (fun e => (e.1, pandasPctChangeCol e.2))⟩

/-- The spec's detrend transform on every column. -/
def dfSpecPctChange (df : DataFrame) : DataFrame :=
  ⟨df.index, df.cols.map (fun e => (e.1, specPctChangeCol e.2))⟩

/-- The pairwise-complete observations of two columns: the row pairs where
BOTH cells are defined. -/
def pairedObs : List (Option ℚ) → List (Option ℚ) → List (ℚ × ℚ)
  | [], _ => []
  | _ :: _, [] => []
  | x :: xs, y :: ys =>
    match x, y with
    | some a, some b => (a, b) :: pairedObs xs ys
    | _, _ => pairedObs xs ys

/-- One cell of `df.corr(method='pearson')` over pairwise-complete
observations, represented algebraically: `some (cov, varX, varY)` with
centred cross-moment `cov` and centred second moments `varX`, `varY`.
The Pearson coefficient itself is `cov / sqrt (varX * varY)`, which this
triple determines exactly; `none` models pandas returning NaN, which
happens precisely when either column is constant on the paired
observations (zero variance — in particular with fewer than two paired
observations). -/
def pearsonStats (xs ys : List (Option ℚ)) : Option (ℚ × ℚ × ℚ) :=
  let ps := pairedObs xs ys
  let n : ℚ := (ps.length : ℚ)
  let mx := (ps.map (fun e => e.1)).sum / n
  let my := (ps.map (fun e => e.2)).sum / n
  let cov := (ps.map (fun e => (e.1 - mx) * (e.2 - my))).sum
  let vx := (ps.map (fun e => (e.1 - mx) * (e.1 - mx))).sum
  let vy := (ps.map (fun e => (e.2 - my) * (e.2 - my))).sum
  if vx = 0 ∨ vy = 0 then none else some (cov, vx, vy)

/-- `df.corr(method='pearson')`: the matrix of Pearson cells over every
pair of columns. -/
def dfCorr (df : DataFrame) : List (List (Option (ℚ × ℚ × ℚ))) :=
  df.cols.map (fun c => df.cols.map (fun d => pearsonStats c.2 d.2))

/-- One column filtered by a predicate on the row timestamps. -/
def filterCol (p : ℚ → Bool) : List ℚ → List (Option ℚ) → List (Option ℚ)
  | [], _ => []
  | _ :: _, [] => []
  | t :: ts, v :: vs => if p t then v :: filterCol p ts vs else filterCol p ts vs

/-- Row selection `df[mask]` for a boolean mask computed from the index
(e.g. `df.index.year == 2016`): keep exactly the rows whose timestamp
satisfies the window predicate. -/
def filterRows (p : ℚ → Bool) (df : DataFrame) : DataFrame :=
  ⟨df.index.filter p, df.cols.map (fun e => (e.1, filterCol p df.index e.2))⟩

/-- The correlation computation of Cryptocurrency-Pricing-Analysis.py
lines 430-431: filter the window, apply `pct_change()`, then
`corr(method='pearson')`. -/
def Analysis.correlate (df : DataFrame) (p : ℚ → Bool) : List (List (Option (ℚ × ℚ × ℚ))) :=
  dfCorr (dfPctChange (filterRows p df))

/-- The correlation computation of crypto-tutorial.py lines 212-213:
filter the window, then `corr(method='pearson')` directly on the raw
price levels (no percentage-change transform). -/
def Tutorial.correlate (df : DataFrame) (p : ℚ → Bool) : List (List (Option (ℚ × ℚ × ℚ))) :=
  dfCorr (filterRows p df)

/-- Lines 179-279: merge the exchange frames on `Weighted Price`, replace
zeros by NaN, then add the cross-exchange mean as `avg_btc_price_usd`. -/
def btc_table (exDfs : List DataFrame) (exLabels : List String) : Except PyExc DataFrame :=
  (Analysis.merge_dfs_on_column exDfs exLabels ("Weighted Price")).map
    (fun m => (m.replace0).setCol ("avg_btc_price_usd") (m.replace0).meanAxis1)

/-- Lines 179-397 as one pipeline over already-fetched frames: build the
Bitcoin table, convert every altcoin frame to USD with the average series,
merge the `price_usd` columns, and attach the average series as column
`BTC` by column assignment. -/
def combined_pipeline (exDfs : List DataFrame) (exLabels : List String)
    (altDfs : List DataFrame) (altLabels : List String) : Except PyExc DataFrame := do
  let btc ← btc_table exDfs exLabels
  let avg := colSeriesD btc ("avg_btc_price_usd")
  let alts ← altDfs.mapM (fun a => convertAltcoin a avg)
  let combined ← Analysis.merge_dfs_on_column alts altLabels ("price_usd")
  pure (combined.setCol ("BTC") avg)

lemma mem_insertSorted (t u : ℚ) (l : List ℚ) : t ∈ insertSorted u l ↔ t = u ∨ t ∈ l := by
  induction l with
  | nil => simp [insertSorted]
  | cons x xs ih =>
    simp only [insertSorted]
    split_ifs with h1 h2
    · simp
    · subst h2
      simp only [List.mem_cons]
      tauto
    · simp only [List.mem_cons, ih]
      tauto

lemma mem_sortedUnion (t : ℚ) (l : List ℚ) : t ∈ sortedUnion l ↔ t ∈ l := by
  induction l with
  | nil => simp [sortedUnion]
  | cons x xs ih =>
    show t ∈ insertSorted x (sortedUnion xs) ↔ _
    rw [mem_insertSorted, ih]
    simp

lemma lookupKey_eq_none (es : List (ℚ × Option ℚ)) (t : ℚ) (h : ∀ e ∈ es, e.1 ≠ t) :
    lookupKey es t = none := by
  induction es with
  | nil => rfl
  | cons e es ih =>
    have he : e.1 ≠ t := h e (by simp)
    simp only [lookupKey, if_neg he]
    exact ih (fun e2 h2 => h e2 (by simp [h2]))

lemma Series.val_eq_none_of_not_mem (s : Series) (t : ℚ) (h : t ∉ s.keys) :
    s.val t = none := by
  apply lookupKey_eq_none
  intro e he het
  exact h (het ▸ List.mem_map_of_mem (fun e => e.1) he)

lemma lookupKey_map_fn (l : List ℚ) (f : ℚ → Option ℚ) (t : ℚ) :
    lookupKey (l.map (fun u => (u, f u))) t = if t ∈ l then f t else none := by
  induction l with
  | nil => simp [lookupKey]
  | cons x xs ih =>
    by_cases hx : x = t
    · subst hx
      simp [lookupKey]
    · simp only [List.map_cons, lookupKey, if_neg hx, ih, List.mem_cons]
      have : ¬ t = x := fun h => hx h.symm
      simp [this]

lemma mulSeries_val (a b : Series) (t : ℚ) : (mulSeries a b).val t = mulVal a b t := by
  unfold mulSeries Series.val
  rw [show (⟨(sortedUnion (a.keys ++ b.keys)).map (fun t => (t, mulVal a b t))⟩ : Series).entries
        = (sortedUnion (a.keys ++ b.keys)).map (fun t => (t, mulVal a b t)) from rfl,
      lookupKey_map_fn]
  by_cases h : t ∈ sortedUnion (a.keys ++ b.keys)
  · simp [h]
  · have hna : t ∉ a.keys := by
      intro hmem
      exact h ((mem_sortedUnion t _).2 (List.mem_append.2 (Or.inl hmem)))
    have : a.val t = none := a.val_eq_none_of_not_mem t hna
    simp [h, mulVal, this]

lemma lookupCol_map_update (cs : List (String × List (Option ℚ))) (l : String)
    (vals : List (Option ℚ)) (h : hasCol cs l = true) :
    lookupCol (cs.map (fun e => if e.1 = l then (l, vals) else e)) l = some vals := by
  induction cs with
  | nil => simp [hasCol] at h
  | cons e es ih =>
    by_cases he : e.1 = l
    · simp [lookupCol, he]
    · have h2 : hasCol es l = true := by
        simpa [hasCol, if_neg he] using h
      simp only [List.map_cons, if_neg he, lookupCol]
      exact ih h2

lemma lookupCol_append_right (cs : List (String × List (Option ℚ))) (l : String)
    (vals : List (Option ℚ)) (h : hasCol cs l = false) :
    lookupCol (cs ++ [(l, vals)]) l = some vals := by
  induction cs with
  | nil => simp [lookupCol]
  | cons e es ih =>
    by_cases he : e.1 = l
    · simp [hasCol, he] at h
    · have h2 : hasCol es l = false := by
        simpa [hasCol, if_neg he] using h
      simp only [List.cons_append, lookupCol, if_neg he]
      exact ih h2

lemma setCol_index (df : DataFrame) (l : String) (s : Series) :
    (df.setCol l s).index = df.index := by
  unfold DataFrame.setCol
  split
  · rfl
  · rfl

lemma setCol_getCol (df : DataFrame) (l : String) (s : Series) :
    (df.setCol l s).getCol l = some (df.index.map (fun t => s.val t)) := by
  unfold DataFrame.setCol DataFrame.getCol
  by_cases h : hasCol df.cols l
  · simp only [if_pos h]
    exact lookupCol_map_update df.cols l _ h
  · simp only [if_neg h]
    exact lookupCol_append_right df.cols l _ (by simpa using h)

lemma hasKey_eq_false (d : List (String × Series)) (k : String) (h : ∀ e ∈ d, e.1 ≠ k) :
    hasKey d k = false := by
  induction d with
  | nil => rfl
  | cons e es ih =>
    have he : e.1 ≠ k := h e (by simp)
    simp only [hasKey, if_neg he]
    exact ih (fun e2 h2 => h e2 (by simp [h2]))

lemma dictInsert_fresh (d : List (String × Series)) (k : String) (v : Series)
    (h : ∀ e ∈ d, e.1 ≠ k) : dictInsert d k v = d ++ [(k, v)] := by
  unfold dictInsert
  rw [hasKey_eq_false d k h]
  simp

lemma ffill_of_all_some (c : List (Option ℚ)) :
    ∀ acc, (∀ v ∈ c, v.isSome) → ffill acc c = c := by
  induction c with
  | nil => intro acc _; rfl
  | cons v vs ih =>
    intro acc h
    have hv : v.isSome := h v (by simp)
    obtain ⟨q, hq⟩ := Option.isSome_iff_exists.1 hv
    subst hq
    simp only [ffill]
    rw [ih (some q) (fun w hw => h w (by simp [hw]))]

lemma exists_zip_snd {A : List String} {B : List Series} (h : B.length ≤ A.length)
    (P : Series → Prop) : (∃ e ∈ A.zip B, P e.2) ↔ ∃ s ∈ B, P s := by
  induction B generalizing A with
  | nil => simp
  | cons b B2 ih =>
    cases A with
    | nil => simp at h
    | cons a A2 =>
      have h2 : B2.length ≤ A2.length := by
        simpa using h
      simp only [List.zip_cons_cons, List.mem_cons]
      constructor
      · rintro ⟨e, (he | he), hp⟩
        · subst he
          exact ⟨b, by simp, hp⟩
        · obtain ⟨s, hs, hsp⟩ := (ih h2).1 ⟨e, he, hp⟩
          exact ⟨s, by simp [hs], hsp⟩
      · rintro ⟨s, (hs | hs), hp⟩
        · subst hs
          exact ⟨(a, s), by simp, hp⟩
        · obtain ⟨e, he, hep⟩ := (ih h2).2 ⟨s, hs, hp⟩
          exact ⟨e, by simp [he], hep⟩

lemma mem_pdDataFrame_index (d : List (String × Series)) (t : ℚ) :
    t ∈ (pdDataFrame d).index ↔ ∃ e ∈ d, t ∈ e.2.keys := by
  show t ∈ sortedUnion ((d.map (fun e => e.2.keys)).flatten) ↔ _
  rw [mem_sortedUnion, List.mem_flatten]
  constructor
  · rintro ⟨ks, hks, ht⟩
    obtain ⟨e, he, rfl⟩ := List.mem_map.1 hks
    exact ⟨e, he, ht⟩
  · rintro ⟨e, he, ht⟩
    exact ⟨e.2.keys, List.mem_map_of_mem _ he, ht⟩

lemma replace0cell_eq (v : Option ℚ) :
    replace0cell v = if v = some 0 then none else v := by
  cases v with
  | none => simp [replace0cell]
  | some q =>
    by_cases h : q = 0
    · simp [replace0cell, h]
    · simp [replace0cell, h]

lemma replace0cell_idem (v : Option ℚ) : replace0cell (replace0cell v) = replace0cell v := by
  cases v with
  | none => rfl
  | some q =>
    by_cases h : q = 0
    · simp [replace0cell, h]
    · simp [replace0cell, h]

lemma replace0cell_ne_zero (v : Option ℚ) : replace0cell v ≠ some 0 := by
  cases v with
  | none => simp [replace0cell]
  | some q =>
    by_cases h : q = 0
    · simp [replace0cell, h]
    · simp [replace0cell, h]

lemma definedCells_map_some (vs : List ℚ) : definedCells (vs.map some) = vs := by
  induction vs with
  | nil => rfl
  | cons v vs ih => simp [definedCells, ih]

lemma definedCells_filter_isSome (row : List (Option ℚ)) :
    definedCells (row.filter (fun v => v.isSome)) = definedCells row := by
  induction row with
  | nil => rfl
  | cons v vs ih =>
    cases v with
    | none => simpa [definedCells] using ih
    | some q => simpa [definedCells] using ih

lemma definedCells_eq_nil (row : List (Option ℚ)) (h : ∀ v ∈ row, v = none) :
    definedCells row = [] := by
  induction row with
  | nil => rfl
  | cons v vs ih =>
    have hv : v = none := h v (by simp)
    subst hv
    exact ih (fun w hw => h w (by simp [hw]))

lemma meanEntries_getElem (df : DataFrame) (ts : List ℚ) :
    ∀ j k, (meanEntries df j ts)[k]? = (ts[k]?).map (fun t => (t, rowMean (df.rowAt (j + k)))) := by
  induction ts with
  | nil => intro j k; simp [meanEntries]
  | cons t ts ih =>
    intro j k
    cases k with
    | zero => simp [meanEntries]
    | succ k2 =>
      simp only [meanEntries, List.getElem?_cons_succ, ih (j + 1) k2]
      have : j + 1 + k2 = j + (k2 + 1) := by omega
      rw [this]

lemma mergeAux_ok_of_nodup (col : String) :
    ∀ (dfs : List DataFrame) (ls : List String) (acc : List (String × Series)),
      (∀ d ∈ dfs, (extractCol d col).isSome) →
      dfs.length ≤ ls.length → ls.Nodup →
      (∀ e ∈ acc, e.1 ∉ ls) →
      Analysis.mergeAux col dfs ls acc =
        .ok (acc ++ (ls.take dfs.length).zip (dfs.map (fun d => colSeriesD d col))) := by
  intro dfs
  induction dfs with
  | nil =>
    intro ls acc _ _ _ _
    simp [Analysis.mergeAux]
  | cons df dfs ih =>
    intro ls acc hall hlen hnodup hacc
    cases ls with
    | nil => simp at hlen
    | cons l ls2 =>
      obtain ⟨s, hs⟩ := Option.isSome_iff_exists.1 (hall df (by simp))
      have hins : dictInsert acc l s = acc ++ [(l, s)] :=
        dictInsert_fresh acc l s (fun e he heq => hacc e he (by simp [heq]))
      have step : Analysis.mergeAux col (df :: dfs) (l :: ls2) acc
          = Analysis.mergeAux col dfs ls2 (dictInsert acc l s) := by
        simp [Analysis.mergeAux, hs]
      have hnd := List.nodup_cons.1 hnodup
      rw [step, hins, ih ls2 (acc ++ [(l, s)])
        (fun d hd => hall d (by simp [hd]))
        (by simpa using hlen) hnd.2
        (by
          intro e he
          rcases List.mem_append.1 he with h1 | h1
          · intro hmem
            exact hacc e h1 (by simp [hmem])
          · have : e = (l, s) := by simpa using h1
            subst this
            exact hnd.1)]
      have hcs : colSeriesD df col = s := by
        simp [colSeriesD, hs]
      simp [List.take_succ_cons, hcs]

/-- Under distinct labels, enough labels, and present columns,
`merge_dfs_on_column` returns the frame built from the label/series dict
in input order. -/
lemma merge_ok_of_nodup (dfs : List DataFrame) (labels : List String) (col : String)
    (hall : ∀ d ∈ dfs, (extractCol d col).isSome)
    (hlen : dfs.length ≤ labels.length) (hnodup : labels.Nodup) :
    Analysis.merge_dfs_on_column dfs labels col =
      .ok (pdDataFrame ((labels.take dfs.length).zip (dfs.map (fun d => colSeriesD d col)))) := by
  unfold Analysis.merge_dfs_on_column
  rw [mergeAux_ok_of_nodup col dfs labels [] hall hlen hnodup (by simp)]
  rfl

lemma mergeAux_indexErr (col : String) :
    ∀ (dfs : List DataFrame) (ls : List String) (acc : List (String × Series)),
      (∀ d ∈ dfs, (extractCol d col).isSome) → ls.length < dfs.length →
      Analysis.mergeAux col dfs ls acc = .error .indexErr := by
  intro dfs
  induction dfs with
  | nil =>
    intro ls acc _ hlen
    simp at hlen
  | cons df dfs ih =>
    intro ls acc hall hlen
    obtain ⟨s, hs⟩ := Option.isSome_iff_exists.1 (hall df (by simp))
    cases ls with
    | nil => simp [Analysis.mergeAux, hs]
    | cons l ls2 =>
      have step : Analysis.mergeAux col (df :: dfs) (l :: ls2) acc
          = Analysis.mergeAux col dfs ls2 (dictInsert acc l s) := by
        simp [Analysis.mergeAux, hs]
      rw [step]
      exact ih ls2 _ (fun d hd => hall d (by simp [hd])) (by simpa using hlen)

lemma mergeAux_ok_exists (col : String) :
    ∀ (dfs : List DataFrame) (ls : List String) (acc : List (String × Series)),
      (∀ d ∈ dfs, (extractCol d col).isSome) → dfs.length ≤ ls.length →
      ∃ d, Analysis.mergeAux col dfs ls acc = .ok d := by
  intro dfs
  induction dfs with
  | nil =>
    intro ls acc _ _
    exact ⟨acc, rfl⟩
  | cons df dfs ih =>
    intro ls acc hall hlen
    obtain ⟨s, hs⟩ := Option.isSome_iff_exists.1 (hall df (by simp))
    cases ls with
    | nil => simp at hlen
    | cons l ls2 =>
      have step : Analysis.mergeAux col (df :: dfs) (l :: ls2) acc
          = Analysis.mergeAux col dfs ls2 (dictInsert acc l s) := by
        simp [Analysis.mergeAux, hs]
      rw [step]
      exact ih ls2 _ (fun d hd => hall d (by simp [hd])) (by simpa using hlen)

lemma seriesArr_ok (col : String) :
    ∀ (dfs : List DataFrame), (∀ d ∈ dfs, (extractCol d col).isSome) →
      Tutorial.seriesArr col dfs = .ok (dfs.map (fun d => colSeriesD d col)) := by
  intro dfs
  induction dfs with
  | nil => intro _; rfl
  | cons df dfs ih =>
    intro hall
    obtain ⟨s, hs⟩ := Option.isSome_iff_exists.1 (hall df (by simp))
    have hcs : colSeriesD df col = s := by
      simp [colSeriesD, hs]
    simp [Tutorial.seriesArr, hs, ih (fun d hd => hall d (by simp [hd])), Except.map, hcs]

lemma labelLoop_indexErr :
    ∀ (ss : List Series) (ls : List String) (acc : List (String × Series)),
      ls.length < ss.length → Tutorial.labelLoop ss ls acc = .error .indexErr := by
  intro ss
  induction ss with
  | nil =>
    intro ls acc hlen
    simp at hlen
  | cons s ss ih =>
    intro ls acc hlen
    cases ls with
    | nil => rfl
    | cons l ls2 =>
      show Tutorial.labelLoop ss ls2 (dictInsert acc l s) = _
      exact ih ls2 _ (by simpa using hlen)

lemma labelLoop_ok_exists :
    ∀ (ss : List Series) (ls : List String) (acc : List (String × Series)),
      ss.length ≤ ls.length → ∃ d, Tutorial.labelLoop ss ls acc = .ok d := by
  intro ss
  induction ss with
  | nil =>
    intro ls acc _
    exact ⟨acc, rfl⟩
  | cons s ss ih =>
    intro ls acc hlen
    cases ls with
    | nil => simp at hlen
    | cons l ls2 =>
      show ∃ d, Tutorial.labelLoop ss ls2 (dictInsert acc l s) = .ok d
      exact ih ls2 _ (by simpa using hlen)

lemma get_json_data_hit (store : Store) (path : String) (remote : Option DataFrame)
    (raw : DataFrame) (h : storeGet store path = .valid raw) :
    get_json_data store path remote = .ok (raw, store, false) := by
  unfold get_json_data
  rw [h]
  rfl

lemma get_json_data_refetch (store : Store) (path : String) (remote : Option DataFrame)
    (df : DataFrame)
    (h : storeGet store path = .absent ∨ storeGet store path = .unreadable)
    (hr : remote = some df) :
    get_json_data store path remote = .ok (df, storePut store path (.valid df), true) := by
  unfold get_json_data
  rcases h with h | h <;> rw [h] <;> simp [openAndLoad, hr]

lemma get_json_data_fetchFail (store : Store) (path : String)
    (h : storeGet store path = .absent ∨ storeGet store path = .unreadable) :
    get_json_data store path none = .error .fetchErr := by
  unfold get_json_data
  rcases h with h | h <;> rw [h] <;> simp [openAndLoad]

lemma get_json_data_corrupt (store : Store) (path : String) (remote : Option DataFrame)
    (h : storeGet store path = .corrupt) :
    get_json_data store path remote = .error .unpicklingErr := by
  unfold get_json_data
  rw [h]
  simp [openAndLoad]

lemma get_quandl_data_refetch (rem : String → Option DataFrame) (store : Store)
    (qid : String) (df : DataFrame)
    (h : storeGet store (quandlCachePath qid) = .absent ∨
         storeGet store (quandlCachePath qid) = .unreadable)
    (hr : rem qid = some df) :
    get_quandl_data rem store qid
      = .ok (df, storePut store (quandlCachePath qid) (.valid df), true) := by
  rcases h with h | h <;> simp [get_quandl_data, h, openAndLoad, hr]

lemma get_quandl_data_fetchFail (rem : String → Option DataFrame) (store : Store)
    (qid : String)
    (h : storeGet store (quandlCachePath qid) = .absent ∨
         storeGet store (quandlCachePath qid) = .unreadable)
    (hr : rem qid = none) :
    get_quandl_data rem store qid = .error .fetchErr := by
  rcases h with h | h <;> simp [get_quandl_data, h, openAndLoad, hr]

lemma get_quandl_data_corrupt (rem : String → Option DataFrame) (store : Store)
    (qid : String) (h : storeGet store (quandlCachePath qid) = .corrupt) :
    get_quandl_data rem store qid = .error .unpicklingErr := by
  simp [get_quandl_data, h, openAndLoad]

/-- The dataframe a fetch call hands back to its caller, if any. -/
def fetchOutcome (x : Except PyExc (DataFrame × Store × Bool)) : Option DataFrame :=
  match x with
  | .ok r => some r.1
  | .error _ => none

/- Concrete instances used by the witnesses and counterexamples below. -/

/-- A one-exchange input frame with a `Weighted Price` column. -/
def exDf : DataFrame := ⟨[1, 2], [("Weighted Price", [some 10, some 10])]⟩

/-- An altcoin frame whose rate is 0 at the first timestamp. -/
def altDf : DataFrame := ⟨[1, 2], [("weightedAverage", [some 0, some 2])]⟩

/-- An altcoin frame covering only the first of the two BTC timestamps. -/
def altDf1 : DataFrame := ⟨[1], [("weightedAverage", [some 2])]⟩

/-- Tiny frames with a `P` column for the merge counterexamples. -/
def m1 : DataFrame := ⟨[1], [("P", [some 1])]⟩

/-- Second tiny frame with a `P` column. -/
def m2 : DataFrame := ⟨[2], [("P", [some 2])]⟩

/-- A two-column frame of exponentially growing prices: raw levels have
positive variance, but every period-over-period percentage change is
constant. -/
def Tc : DataFrame :=
  ⟨[1, 2, 3, 4],
   [("A", [some 1, some 2, some 4, some 8]), ("B", [some 1, some 3, some 9, some 27])]⟩

/-- Poloniex raw response for query parameters (0, 10, 86400). -/
def dfA : DataFrame := ⟨[0, 1], [("date", [some 1, some 2]), ("weightedAverage", [some 5, some 6])]⟩

/-- Poloniex raw response for query parameters (0, 20, 86400). -/
def dfB : DataFrame := ⟨[0, 1], [("date", [some 1, some 2]), ("weightedAverage", [some 7, some 8])]⟩

/-- A remote oracle serving distinct dataframes for two distinct parameter
sets of the same currency pair. -/
def orC : String × ℕ × ℕ × ℕ → Option DataFrame := fun q =>
  if q = ("BTC_ETH", 0, 10, 86400) then some dfA
  else if q = ("BTC_ETH", 0, 20, 86400) then some dfB else none

/-- `dfA` after `set_index('date')`. -/
def d1 : DataFrame := ⟨[1, 2], [("weightedAverage", [some 5, some 6])]⟩

/-- The cache store after the first successful `BTC_ETH` fetch. -/
def st1 : Store := [("BTC_ETH", CacheFile.valid dfA)]

/-- A remote dataframe for the quandl counterexample. -/
def dfR : DataFrame := ⟨[1], [("Weighted Price", [some 3])]⟩

/-- A store whose only entry for quandl id `A` is readable but corrupt. -/
def corruptStore : Store := [("A.pkl", CacheFile.corrupt)]

/-- The conversion-stage scenario frame: rates 2.0 and 3.0. -/
def altW : DataFrame := ⟨[1, 2], [("weightedAverage", [some 2, some 3])]⟩

/-- The conversion-stage scenario reference: 100.0 then undefined. -/
def avgW : Series := ⟨[(1, some 100), (2, none)]⟩

/-- The conversion-stage scenario output: 200.0 then undefined. -/
def outW : DataFrame :=
  ⟨[1, 2], [("weightedAverage", [some 2, some 3]), ("price_usd", [some 200, none])]⟩

/-- A parseable-but-malformed remote response with no `date` column. -/
def errDf : DataFrame := ⟨[0], [("error", [some 1])]⟩

/-- The combined table the pipeline produces from `exDf`/`altDf1`. -/
def c2Out : DataFrame := ⟨[1], [("ETH", [some 20]), ("BTC", [some 10])]⟩

/-- The Bitcoin table the pipeline produces from `exDf`. -/
def c2Btc : DataFrame :=
  ⟨[1, 2], [("KRAKEN", [some 10, some 10]), ("avg_btc_price_usd", [some 10, some 10])]⟩

/-- The combined table the pipeline produces from `exDf`/`altDf`. -/
def c6Out : DataFrame := ⟨[1, 2], [("ETH", [some 0, some 20]), ("BTC", [some 10, some 10])]⟩

/-- The average-price reference series of `c2Btc`. -/
def avgS : Series := ⟨[(1, some 10), (2, some 10)]⟩

/-- `altDf` after the conversion stage against `avgS`. -/
def altConv : DataFrame :=
  ⟨[1, 2], [("weightedAverage", [some 0, some 2]), ("price_usd", [some 0, some 20])]⟩

/-- The merged altcoin table from `altConv`. -/
def combC6 : DataFrame := ⟨[1, 2], [("ETH", [some 0, some 20])]⟩

/-- `altDf1` after the conversion stage against `avgS`. -/
def altConv1 : DataFrame := ⟨[1], [("weightedAverage", [some 2]), ("price_usd", [some 20])]⟩

/-- The merged altcoin table from `altConv1`. -/
def combC2 : DataFrame := ⟨[1], [("ETH", [some 20])]⟩

/-- A one-source input frame whose `P` column has a NaN cell. -/
def wDf : DataFrame := ⟨[1, 2], [("P", [some 1, none])]⟩

/-- The merge of `wDf` under label `K`. -/
def wOut : DataFrame := ⟨[1, 2], [("K", [some 1, none])]⟩

/-- A series with two timestamps for the column-assignment witness. -/
def wS : Series := ⟨[(1, some 2), (2, some 3)]⟩

lemma btc_table_exDf : btc_table [exDf] ["KRAKEN"] = .ok c2Btc := by
  norm_num [btc_table, Analysis.merge_dfs_on_column, Analysis.mergeAux, extractCol,
    DataFrame.getCol, lookupCol, exDf, dictInsert, hasKey, pdDataFrame, sortedUnion, insertSorted,
    Series.keys, Series.val, lookupKey, Except.map, DataFrame.replace0, replace0cell,
    DataFrame.setCol, hasCol, DataFrame.meanAxis1, meanEntries, DataFrame.rowAt, rowMean,
    definedCells, c2Btc] <;> decide

lemma avgS_of_c2Btc : colSeriesD c2Btc ("avg_btc_price_usd") = avgS := by
  norm_num [colSeriesD, extractCol, DataFrame.getCol, lookupCol, c2Btc, avgS] <;> decide

lemma convert_altDf : convertAltcoin altDf avgS = .ok altConv := by
  norm_num [convertAltcoin, altDf, avgS, altConv, DataFrame.getCol, lookupCol, DataFrame.setCol,
    hasCol, mulSeries, mulVal, Series.val, Series.keys, lookupKey, sortedUnion,
    insertSorted] <;> decide

lemma merge_altConv : Analysis.merge_dfs_on_column [altConv] ["ETH"] ("price_usd") = .ok combC6 := by
  have hext : extractCol altConv ("price_usd") = some ⟨[(1, some 0), (2, some 20)]⟩ := by
    norm_num [extractCol, DataFrame.getCol, lookupCol, altConv] <;> decide
  norm_num [Analysis.merge_dfs_on_column, Analysis.mergeAux, hext, dictInsert, hasKey,
    pdDataFrame, sortedUnion, insertSorted, Series.keys, Series.val, lookupKey, Except.map,
    combC6] <;> decide

lemma setBTC_combC6 : combC6.setCol ("BTC") avgS = c6Out := by
  norm_num [combC6, avgS, c6Out, DataFrame.setCol, hasCol, Series.val, lookupKey] <;> decide

lemma convert_altDf1 : convertAltcoin altDf1 avgS = .ok altConv1 := by
  norm_num [convertAltcoin, altDf1, avgS, altConv1, DataFrame.getCol, lookupCol, DataFrame.setCol,
    hasCol, mulSeries, mulVal, Series.val, Series.keys, lookupKey, sortedUnion,
    insertSorted] <;> decide

lemma merge_altConv1 : Analysis.merge_dfs_on_column [altConv1] ["ETH"] ("price_usd") = .ok combC2 := by
  have hext : extractCol altConv1 ("price_usd") = some ⟨[(1, some 20)]⟩ := by
    norm_num [extractCol, DataFrame.getCol, lookupCol, altConv1] <;> decide
  norm_num [Analysis.merge_dfs_on_column, Analysis.mergeAux, hext, dictInsert, hasKey,
    pdDataFrame, sortedUnion, insertSorted, Series.keys, Series.val, lookupKey, Except.map,
    combC2] <;> decide

lemma setBTC_combC2 : combC2.setCol ("BTC") avgS = c2Out := by
  norm_num [combC2, avgS, c2Out, DataFrame.setCol, hasCol, Series.val, lookupKey] <;> decide

lemma merge_wDf : Analysis.merge_dfs_on_column [wDf] ["K"] ("P") = .ok wOut := by
  norm_num [Analysis.merge_dfs_on_column, Analysis.mergeAux, extractCol, DataFrame.getCol,
    lookupCol, wDf, dictInsert, hasKey, pdDataFrame, sortedUnion, insertSorted, Series.keys,
    Series.val, lookupKey, Except.map, wOut] <;> decide

/-- Claim C10: the Series Normalizer (`df.replace(0, np.nan)`) is
idempotent — normalizing twice equals normalizing once — where normalize
replaces values equal to 0 with undefined and leaves every other value and
every timestamp (and column label) unchanged. -/
theorem c10_normalizer_idempotent (df : DataFrame) :
    (df.replace0).replace0 = df.replace0 ∧
    (df.replace0).index = df.index ∧
    (df.replace0).cols.map (fun e => e.1) = df.cols.map (fun e => e.1) ∧
    (∀ v : Option ℚ, replace0cell v = if v = some 0 then none else v) := by
  refine ⟨?_, rfl, ?_, replace0cell_eq⟩
  · have key : ∀ cs : List (String × List (Option ℚ)),
        (cs.map (fun e => (e.1, e.2.map replace0cell))).map (fun e => (e.1, e.2.map replace0cell))
          = cs.map (fun e => (e.1, e.2.map replace0cell)) := by
      intro cs
      rw [List.map_map]
      apply List.map_congr_left
      intro e _
      have : (e.2.map replace0cell).map replace0cell = e.2.map replace0cell := by
        rw [List.map_map]
        apply List.map_congr_left
        intro v _
        exact replace0cell_idem v
      simp [Function.comp, this]
    exact congrArg (DataFrame.mk df.index) (key df.cols)
  · simp [DataFrame.replace0, List.map_map, Function.comp]

/-- Claim C7: for every row of the aligned table, the Index Builder
(`df.mean(axis=1)`) returns the arithmetic mean of the defined cells of
that row, ignoring undefined entries rather than treating them as zero; an
all-undefined row yields an undefined mean, and a row with exactly one
defined cell yields exactly that value.  The last conjunct ties the
builder's series to the per-row mean. -/
theorem c7_index_builder_mean :
    (∀ vs : List ℚ, vs ≠ [] → rowMean (vs.map some) = some (vs.sum / (vs.length : ℚ))) ∧
    (∀ row : List (Option ℚ), rowMean (row.filter (fun v => v.isSome)) = rowMean row) ∧
    (∀ row : List (Option ℚ), (∀ v ∈ row, v = none) → rowMean row = none) ∧
    (∀ (row : List (Option ℚ)) (x : ℚ), definedCells row = [x] → rowMean row = some x) ∧
    (∀ (df : DataFrame) (k : ℕ),
       (df.meanAxis1).entries[k]? = (df.index[k]?).map (fun t => (t, rowMean (df.rowAt k)))) := by
  refine ⟨?_, ?_, ?_, ?_, ?_⟩
  · intro vs hvs
    simp [rowMean, definedCells_map_some, hvs]
  · intro row
    simp [rowMean, definedCells_filter_isSome]
  · intro row hall
    simp [rowMean, definedCells_eq_nil row hall]
  · intro row x hx
    simp [rowMean, hx]
  · intro df k
    simpa using meanEntries_getElem df df.index 0 k

/-- Witness for C7 at concrete rows: a fully defined row gives the
arithmetic mean, an all-undefined row gives undefined, and a row with one
defined cell gives that cell. -/
theorem c7_witness :
    rowMean ([(3 : ℚ), 5].map some) = some (([(3 : ℚ), 5].sum) / (([(3 : ℚ), 5].length : ℚ))) ∧
    rowMean [none, none] = none ∧
    rowMean [none, some 7, none] = some 7 :=
  ⟨c7_index_builder_mean.1 [3, 5] (by decide),
   c7_index_builder_mean.2.2.1 [none, none] (by decide),
   c7_index_builder_mean.2.2.2.1 [none, some 7, none] 7 (by norm_num [definedCells])⟩

/-- Claim C8: the Conversion Stage (line 377) produces
`output[t] = series[t][sourceColumn] * referenceSeries[t]` at each
timestamp of the series' index, and where the reference is undefined or
absent the output is undefined (missing-ness propagates instead of
failing). -/
theorem c8_conversion_stage (alt : DataFrame) (avg : Series) (out : DataFrame)
    (c : List (Option ℚ)) (hc : alt.getCol ("weightedAverage") = some c)
    (h : convertAltcoin alt avg = .ok out) :
    out.getCol ("price_usd")
      = some (alt.index.map (fun t => mulVal ⟨alt.index.zip c⟩ avg t)) ∧
    (∀ t x y, Series.val ⟨alt.index.zip c⟩ t = some x → avg.val t = some y →
       mulVal ⟨alt.index.zip c⟩ avg t = some (x * y)) ∧
    (∀ t, avg.val t = none → mulVal ⟨alt.index.zip c⟩ avg t = none) := by
  have hout : out = alt.setCol ("price_usd") (mulSeries ⟨alt.index.zip c⟩ avg) := by
    unfold convertAltcoin at h
    rw [hc] at h
    exact (Except.ok.inj h).symm
  subst hout
  refine ⟨?_, ?_, ?_⟩
  · rw [setCol_getCol]
    congr 1
    apply List.map_congr_left
    intro t _
    exact mulSeries_val _ avg t
  · intro t x y h1 h2
    simp [mulVal, h1, h2]
  · intro t h1
    cases hv : Series.val ⟨alt.index.zip c⟩ t <;> simp [mulVal, hv, h1]

/-- Witness for C8 at the spec scenario: rates [2.0, 3.0] against
reference [100.0, undefined] yield [200.0, undefined]. -/
theorem c8_witness :
    DataFrame.getCol outW ("price_usd")
      = some (altW.index.map (fun t => mulVal ⟨altW.index.zip [some 2, some 3]⟩ avgW t)) ∧
    (∀ t x y, Series.val ⟨altW.index.zip [some 2, some 3]⟩ t = some x → avgW.val t = some y →
       mulVal ⟨altW.index.zip [some 2, some 3]⟩ avgW t = some (x * y)) ∧
    (∀ t, avgW.val t = none → mulVal ⟨altW.index.zip [some 2, some 3]⟩ avgW t = none) :=
  c8_conversion_stage altW avgW outW [some 2, some 3] (by norm_num [DataFrame.getCol, lookupCol, altW])
    (by
      norm_num [convertAltcoin, altW, avgW, outW, DataFrame.getCol, lookupCol, DataFrame.setCol,
        hasCol, mulSeries, mulVal, Series.val, Series.keys, lookupKey, sortedUnion, insertSorted]
      decide)

/-- Claim C9: when the remote call fails (modelled as a raised exception,
`none` from the oracle) and no usable cache entry exists, the fetchers
surface an error and abort for that series — they never return an empty or
zero-filled series.  A parseable-but-malformed response without a `date`
column likewise aborts `get_crypto_data` with a KeyError. -/
theorem c9_source_unavailable (store : Store) (path qid pair : String)
    (rem : String → Option DataFrame) (oracle : String × ℕ × ℕ × ℕ → Option DataFrame)
    (startT endT period : ℕ) (df : DataFrame) :
    ((storeGet store path = .absent ∨ storeGet store path = .unreadable) →
       get_json_data store path none = .error .fetchErr) ∧
    ((storeGet store (quandlCachePath qid) = .absent ∨
        storeGet store (quandlCachePath qid) = .unreadable) → rem qid = none →
       get_quandl_data rem store qid = .error .fetchErr) ∧
    (storeGet store pair = .absent → oracle (polo_url pair startT endT period) = none →
       get_crypto_data oracle store pair startT endT period = .error .fetchErr) ∧
    (storeGet store pair = .absent → oracle (polo_url pair startT endT period) = some df →
       df.getCol ("date") = none →
       get_crypto_data oracle store pair startT endT period = .error .keyErr) := by
  refine ⟨?_, ?_, ?_, ?_⟩
  · intro h
    exact get_json_data_fetchFail store path h
  · intro h hr
    exact get_quandl_data_fetchFail rem store qid h hr
  · intro h hor
    unfold get_crypto_data
    rw [hor, get_json_data_fetchFail store pair (Or.inl h)]
  · intro h hor hdate
    unfold get_crypto_data
    rw [hor, get_json_data_refetch store pair (some df) df (Or.inl h) rfl]
    simp [DataFrame.set_index_date, hdate]

/-- Witness for C9: concrete failed fetches with an empty cache surface
errors, and a malformed response without a date column aborts. -/
theorem c9_witness :
    get_json_data [] ("u") none = .error .fetchErr ∧
    get_quandl_data (fun _ => none) [] ("A") = .error .fetchErr ∧
    get_crypto_data (fun _ => none) [] ("BTC_ETH") 0 10 86400 = .error .fetchErr ∧
    get_crypto_data (fun _ => some errDf) [] ("BTC_ETH") 0 10 86400 = .error .keyErr :=
  ⟨(c9_source_unavailable [] ("u") ("A") ("BTC_ETH") (fun _ => none) (fun _ => none)
      0 10 86400 errDf).1 (Or.inl rfl),
   (c9_source_unavailable [] ("u") ("A") ("BTC_ETH") (fun _ => none) (fun _ => none)
      0 10 86400 errDf).2.1 (Or.inl rfl) rfl,
   (c9_source_unavailable [] ("u") ("A") ("BTC_ETH") (fun _ => none) (fun _ => none)
      0 10 86400 errDf).2.2.1 rfl rfl,
   (c9_source_unavailable [] ("u") ("A") ("BTC_ETH") (fun _ => none) (fun _ => some errDf)
      0 10 86400 errDf).2.2.2 rfl rfl rfl⟩

/-- Claim C3 (amended): a cache file that is absent or unreadable at the
OS level is treated as a cache miss — the fetcher re-fetches from the
remote source and persists the result — but a cache entry that opens and
then fails to deserialize is NOT recovered: the deserialization error
propagates to the caller (only `OSError`/`IOError` are caught). -/
theorem c3_cache_deserialization (rem : String → Option DataFrame) (store : Store)
    (qid path : String) (df : DataFrame) (remote : Option DataFrame) :
    (storeGet store (quandlCachePath qid) = .absent → rem qid = some df →
       get_quandl_data rem store qid
         = .ok (df, storePut store (quandlCachePath qid) (.valid df), true)) ∧
    (storeGet store (quandlCachePath qid) = .unreadable → rem qid = some df →
       get_quandl_data rem store qid
         = .ok (df, storePut store (quandlCachePath qid) (.valid df), true)) ∧
    (storeGet store (quandlCachePath qid) = .corrupt →
       get_quandl_data rem store qid = .error .unpicklingErr) ∧
    (storeGet store path = .corrupt →
       get_json_data store path remote = .error .unpicklingErr) :=
  ⟨fun h hr => get_quandl_data_refetch rem store qid df (Or.inl h) hr,
   fun h hr => get_quandl_data_refetch rem store qid df (Or.inr h) hr,
   fun h => get_quandl_data_corrupt rem store qid h,
   fun h => get_json_data_corrupt store path remote h⟩

/-- Witness for C3 at concrete stores: an absent entry triggers re-fetch
and caching; a corrupt entry surfaces the deserialization error. -/
theorem c3_witness :
    get_quandl_data (fun _ => some dfR) [] ("A")
      = .ok (dfR, storePut [] (quandlCachePath ("A")) (.valid dfR), true) ∧
    get_quandl_data (fun _ => some dfR) corruptStore ("A") = .error .unpicklingErr ∧
    get_json_data corruptStore ("A.pkl") (some dfR) = .error .unpicklingErr :=
  ⟨(c3_cache_deserialization (fun _ => some dfR) [] ("A") ("A.pkl") dfR (some dfR)).1 rfl rfl,
   (c3_cache_deserialization (fun _ => some dfR) corruptStore ("A") ("A.pkl") dfR
      (some dfR)).2.2.1 (by decide),
   (c3_cache_deserialization (fun _ => some dfR) corruptStore ("A") ("A.pkl") dfR
      (some dfR)).2.2.2 (by decide)⟩

/-- Counterexample to C3 as stated: with a corrupt cache entry for quandl
id `A` and a remote source that would deliver `dfR`, `get_quandl_data`
does NOT treat the corruption as a cache miss — no dataframe is returned
to the caller; the `UnpicklingError` surfaces instead of a re-fetch. -/
theorem c3_cex :
    get_quandl_data (fun _ => some dfR) corruptStore ("A") = .error .unpicklingErr ∧
    fetchOutcome (get_quandl_data (fun _ => some dfR) corruptStore ("A")) = none ∧
    fetchOutcome (.ok (dfR, storePut corruptStore (quandlCachePath ("A")) (.valid dfR), true))
      = some dfR := by
  have h1 : get_quandl_data (fun _ => some dfR) corruptStore ("A") = .error .unpicklingErr :=
    get_quandl_data_corrupt (fun _ => some dfR) corruptStore ("A") (by decide)
  refine ⟨h1, ?_, rfl⟩
  rw [h1]
  rfl

/-- Claim C4 (amended): `merge_dfs_on_column` performs no label
validation.  When the label list is shorter than the dataframe list the
loop dies with an `IndexError`; when it is at least as long — labels
duplicated or not — the merge succeeds and produces a table. -/
theorem c4_merge_label_validation (dfs : List DataFrame) (labels : List String) (col : String) :
    ((∀ d ∈ dfs, (extractCol d col).isSome) → labels.length < dfs.length →
       Analysis.merge_dfs_on_column dfs labels col = .error .indexErr) ∧
    ((∀ d ∈ dfs, (extractCol d col).isSome) → dfs.length ≤ labels.length →
       ∃ out, Analysis.merge_dfs_on_column dfs labels col = .ok out) ∧
    ((∀ d ∈ dfs, (extractCol d col).isSome) → labels.length < dfs.length →
       Tutorial.merge_dfs_on_column dfs labels col = .error .indexErr) ∧
    ((∀ d ∈ dfs, (extractCol d col).isSome) → dfs.length ≤ labels.length →
       ∃ out, Tutorial.merge_dfs_on_column dfs labels col = .ok out) := by
  refine ⟨?_, ?_, ?_, ?_⟩
  · intro hall hlen
    unfold Analysis.merge_dfs_on_column
    rw [mergeAux_indexErr col dfs labels [] hall hlen]
    rfl
  · intro hall hlen
    obtain ⟨d, hd⟩ := mergeAux_ok_exists col dfs labels [] hall hlen
    refine ⟨pdDataFrame d, ?_⟩
    unfold Analysis.merge_dfs_on_column
    rw [hd]
    rfl
  · intro hall hlen
    unfold Tutorial.merge_dfs_on_column
    rw [seriesArr_ok col dfs hall]
    show Except.map pdDataFrame
      (Tutorial.labelLoop (dfs.map (fun d => colSeriesD d col)) labels []) = _
    rw [labelLoop_indexErr (dfs.map (fun d => colSeriesD d col)) labels [] (by simpa using hlen)]
    rfl
  · intro hall hlen
    obtain ⟨d, hd⟩ := labelLoop_ok_exists (dfs.map (fun d => colSeriesD d col)) labels []
      (by simpa using hlen)
    refine ⟨pdDataFrame d, ?_⟩
    unfold Tutorial.merge_dfs_on_column
    rw [seriesArr_ok col dfs hall]
    show Except.map pdDataFrame
      (Tutorial.labelLoop (dfs.map (fun d => colSeriesD d col)) labels []) = _
    rw [hd]
    rfl

/-- Witness for C4 at concrete inputs: a short label list aborts with an
IndexError in both implementations, and a long-enough one succeeds. -/
theorem c4_witness :
    Analysis.merge_dfs_on_column [m1, m2] ["A"] ("P") = .error .indexErr ∧
    (∃ out, Analysis.merge_dfs_on_column [m1, m2] ["A", "B"] ("P") = .ok out) ∧
    Tutorial.merge_dfs_on_column [m1, m2] ["A"] ("P") = .error .indexErr ∧
    (∃ out, Tutorial.merge_dfs_on_column [m1, m2] ["A", "B"] ("P") = .ok out) :=
  ⟨(c4_merge_label_validation [m1, m2] ["A"] ("P")).1 (by decide) (by decide),
   (c4_merge_label_validation [m1, m2] ["A", "B"] ("P")).2.1 (by decide) (by decide),
   (c4_merge_label_validation [m1, m2] ["A"] ("P")).2.2.1 (by decide) (by decide),
   (c4_merge_label_validation [m1, m2] ["A", "B"] ("P")).2.2.2 (by decide) (by decide)⟩

/-- Counterexample to C4 as stated: a merge called with DUPLICATE labels
does not fail — both implementations silently produce a table in which
the later series has overwritten the earlier one under the shared label
(even the earlier series' timestamps are gone). -/
theorem c4_cex :
    Analysis.merge_dfs_on_column [m1, m2] ["A", "A"] ("P") = .ok ⟨[2], [("A", [some 2])]⟩ ∧
    Tutorial.merge_dfs_on_column [m1, m2] ["A", "A"] ("P") = .ok ⟨[2], [("A", [some 2])]⟩ := by
  constructor <;>
    norm_num [Analysis.merge_dfs_on_column, Analysis.mergeAux, Tutorial.merge_dfs_on_column,
      Tutorial.seriesArr, Tutorial.labelLoop, extractCol, DataFrame.getCol, lookupCol, m1, m2,
      dictInsert, hasKey, pdDataFrame, sortedUnion, insertSorted, Series.keys, Series.val,
      lookupKey, Except.map, Except.bind, Except.pure] <;> decide

/-- Claim C5 (amended): the Poloniex fetcher keys its cache by the pair
string alone — the query parameters are not part of the cache key.  A
valid cache entry for the pair is returned on every later call, whatever
the query parameters, with no write; a missing entry triggers one fetch
and one write keyed by the pair. -/
theorem c5_cache_key (oracle : String × ℕ × ℕ × ℕ → Option DataFrame) (store : Store)
    (pair : String) (startT endT period : ℕ) (raw df : DataFrame) :
    (storeGet store pair = .valid raw →
       get_crypto_data oracle store pair startT endT period
         = Except.map (fun d => (d, store, false)) raw.set_index_date) ∧
    (storeGet store pair = .absent →
       oracle (polo_url pair startT endT period) = some df →
       get_crypto_data oracle store pair startT endT period
         = Except.map (fun d => (d, storePut store pair (.valid df), true)) df.set_index_date) := by
  constructor
  · intro h
    unfold get_crypto_data
    rw [get_json_data_hit store pair _ raw h]
    cases hs : raw.set_index_date <;> simp [Except.map, hs]
  · intro h hor
    unfold get_crypto_data
    rw [hor, get_json_data_refetch store pair (some df) df (Or.inl h) rfl]
    cases hs : df.set_index_date <;> simp [Except.map, hs]

/-- Witness for C5 at a concrete store: a cache hit is served from the
store without a write, and a miss fetches and writes once. -/
theorem c5_witness :
    get_crypto_data orC st1 ("BTC_ETH") 0 20 86400
      = Except.map (fun d => (d, st1, false)) dfA.set_index_date ∧
    get_crypto_data orC [] ("BTC_ETH") 0 10 86400
      = Except.map (fun d => (d, storePut [] ("BTC_ETH") (.valid dfA), true)) dfA.set_index_date :=
  ⟨(c5_cache_key orC st1 ("BTC_ETH") 0 20 86400 dfA dfA).1 (by decide),
   (c5_cache_key orC [] ("BTC_ETH") 0 10 86400 dfA dfA).2 rfl
     (by norm_num [orC] <;> decide)⟩

/-- Counterexample to C5 as stated: the pair `(sourceId, queryParams) =
("BTC_ETH", (0, 20, 86400))` is distinct from `("BTC_ETH", (0, 10,
86400))`, and the oracle would deliver a different dataframe `dfB` for
it; yet after the first call cached `dfA`, the second call performs NO
cache write (so "exactly once per distinct pair" fails for it) and
returns the entry fetched under the other parameters. -/
theorem c5_cex :
    get_crypto_data orC [] ("BTC_ETH") 0 10 86400 = .ok (d1, st1, true) ∧
    get_crypto_data orC st1 ("BTC_ETH") 0 20 86400 = .ok (d1, st1, false) ∧
    orC ("BTC_ETH", 0, 20, 86400) = some dfB ∧
    dfB ≠ dfA := by
  refine ⟨?_, ?_, ?_, by decide⟩
  · have hor : orC (polo_url ("BTC_ETH") 0 10 86400) = some dfA := by
      norm_num [orC, polo_url] <;> decide
    have hset : dfA.set_index_date = .ok d1 := by
      norm_num [DataFrame.set_index_date, DataFrame.getCol, lookupCol, dfA, d1,
        definedCells] <;> decide
    unfold get_crypto_data
    rw [hor, get_json_data_refetch [] ("BTC_ETH") (some dfA) dfA (Or.inl rfl) rfl]
    simp [hset, st1, storePut]
  · have hset : dfA.set_index_date = .ok d1 := by
      norm_num [DataFrame.set_index_date, DataFrame.getCol, lookupCol, dfA, d1,
        definedCells] <;> decide
    unfold get_crypto_data
    rw [get_json_data_hit st1 ("BTC_ETH") _ dfA (by decide)]
    simp [hset]
  · norm_num [orC] <;> decide

/-- Claim C6 (amended): only the merged Bitcoin exchange table passes
through the zero normalizer — `replace0` leaves no defined-zero cell in
it — while altcoin frames are never normalized: a zero rate at a
timestamp with a defined reference value reaches the converted
`price_usd` column as a defined 0, not as undefined. -/
theorem c6_normalizer_scope (df alt : DataFrame) (avg : Series) (c : List (Option ℚ))
    (t : ℚ) (y : ℚ) (out : DataFrame) :
    (∀ e ∈ df.replace0.cols, ∀ v ∈ e.2, v ≠ some 0) ∧
    (alt.getCol ("weightedAverage") = some c →
     Series.val ⟨alt.index.zip c⟩ t = some 0 → avg.val t = some y →
     convertAltcoin alt avg = .ok out →
       out.getCol ("price_usd")
         = some (alt.index.map (fun u => mulVal ⟨alt.index.zip c⟩ avg u)) ∧
       mulVal ⟨alt.index.zip c⟩ avg t = some 0) := by
  constructor
  · intro e he v hv
    simp only [DataFrame.replace0, List.mem_map] at he
    obtain ⟨e0, he0, rfl⟩ := he
    obtain ⟨w, hw, rfl⟩ := List.mem_map.1 hv
    exact replace0cell_ne_zero w
  · intro hc hz hy h
    have hout : out = alt.setCol ("price_usd") (mulSeries ⟨alt.index.zip c⟩ avg) := by
      unfold convertAltcoin at h
      rw [hc] at h
      exact (Except.ok.inj h).symm
    subst hout
    constructor
    · rw [setCol_getCol]
      congr 1
      apply List.map_congr_left
      intro u _
      exact mulSeries_val _ avg u
    · simp [mulVal, hz, hy]

/-- Witness for C6 at concrete frames: the normalized exchange table has
no zero cell, while the unnormalized altcoin frame's zero survives
conversion as a defined 0. -/
theorem c6_witness :
    (∀ e ∈ exDf.replace0.cols, ∀ v ∈ e.2, v ≠ some 0) ∧
    altConv.getCol ("price_usd")
      = some (altDf.index.map (fun u => mulVal ⟨altDf.index.zip [some 0, some 2]⟩ avgS u)) ∧
    mulVal ⟨altDf.index.zip [some 0, some 2]⟩ avgS 1 = some 0 :=
  ⟨(c6_normalizer_scope exDf altDf avgS [some 0, some 2] 1 10 altConv).1,
   ((c6_normalizer_scope exDf altDf avgS [some 0, some 2] 1 10 altConv).2 (by decide)
      (by decide) (by decide) convert_altDf).1,
   ((c6_normalizer_scope exDf altDf avgS [some 0, some 2] 1 10 altConv).2 (by decide)
      (by decide) (by decide) convert_altDf).2⟩

/-- Counterexample to C6 as stated: in a full pipeline run the altcoin
frame's zero rate at timestamp 1 reaches the final combined table (the
input of the Correlation Engine) as the DEFINED value 0 — it was never
replaced by undefined, because no normalizer is ever applied to altcoin
data. -/
theorem c6_cex :
    combined_pipeline [exDf] ["KRAKEN"] [altDf] ["ETH"] = .ok c6Out ∧
    (colSeriesD c6Out ("ETH")).val 1 = some 0 := by
  constructor
  · simp [combined_pipeline, btc_table_exDf, avgS_of_c2Btc, convert_altDf, merge_altConv,
      setBTC_combC6, List.mapM, List.mapM.loop, Except.bind, Except.pure, bind, pure]
  · decide

/-- Claim C2 (amended): merges performed through `merge_dfs_on_column`
(with distinct labels, enough labels, and present columns) are outer
joins — the output row set is exactly the union of the input series'
timestamps, and each output column is each series read off at every union
timestamp, undefined where the series lacks the timestamp.  The final
assembly `combined_df['BTC'] = ...` is NOT such a merge: column
assignment keeps the left frame's index unchanged, so reference-series
timestamps missing from the altcoin table are dropped. -/
theorem c2_merge_union (dfs : List DataFrame) (labels : List String) (col : String)
    (out : DataFrame) (d2 : DataFrame) (l2 : String) (s2 : Series) (t : ℚ)
    (hnodup : labels.Nodup) (hall : ∀ d ∈ dfs, (extractCol d col).isSome)
    (hlen : dfs.length ≤ labels.length)
    (hout : Analysis.merge_dfs_on_column dfs labels col = .ok out) :
    (∀ u : ℚ, u ∈ out.index ↔ ∃ d ∈ dfs, u ∈ (colSeriesD d col).keys) ∧
    (∀ e ∈ out.cols, ∃ d ∈ dfs, e.2 = out.index.map (fun u => (colSeriesD d col).val u)) ∧
    (d2.setCol l2 s2).index = d2.index ∧
    (t ∉ s2.keys → s2.val t = none) := by
  have hm := merge_ok_of_nodup dfs labels col hall hlen hnodup
  rw [hout] at hm
  have hZ : out
      = pdDataFrame ((labels.take dfs.length).zip (dfs.map (fun d => colSeriesD d col))) :=
    Except.ok.inj hm
  subst hZ
  refine ⟨?_, ?_, setCol_index d2 l2 s2, fun h => s2.val_eq_none_of_not_mem t h⟩
  · intro u
    have hlens : (dfs.map (fun d => colSeriesD d col)).length
        ≤ (labels.take dfs.length).length := by
      simp [List.length_take, Nat.min_eq_left hlen]
    refine Iff.trans (mem_pdDataFrame_index _ u)
      (Iff.trans (exists_zip_snd hlens (fun s => u ∈ s.keys)) ?_)
    constructor
    · rintro ⟨s, hs, hu⟩
      obtain ⟨d, hd, rfl⟩ := List.mem_map.1 hs
      exact ⟨d, hd, hu⟩
    · rintro ⟨d, hd, hu⟩
      exact ⟨colSeriesD d col, List.mem_map_of_mem _ hd, hu⟩
  · intro e he
    simp only [pdDataFrame] at he
    obtain ⟨g, hg, rfl⟩ := List.mem_map.1 he
    have hsnd := (List.of_mem_zip hg).2
    obtain ⟨d, hd, hgd⟩ := List.mem_map.1 hsnd
    refine ⟨d, hd, ?_⟩
    show (sortedUnion _).map (fun u => g.2.val u) = _
    rw [hgd]
    rfl

/-- Witness for C2 at a concrete merge: the single-source merge keeps the
source's full index (NaN rows included), and a concrete column assignment
keeps the left index. -/
theorem c2_witness :
    (∀ u : ℚ, u ∈ wOut.index ↔ ∃ d ∈ [wDf], u ∈ (colSeriesD d ("P")).keys) ∧
    (∀ e ∈ wOut.cols, ∃ d ∈ [wDf], e.2 = wOut.index.map (fun u => (colSeriesD d ("P")).val u)) ∧
    (m1.setCol ("B") wS).index = m1.index ∧
    ((2 : ℚ) ∉ wS.keys → wS.val 2 = none) :=
  c2_merge_union [wDf] ["K"] ("P") wOut m1 ("B") wS 2 (by decide) (by decide) (by decide)
    merge_wDf

/-- Counterexample to C2 as stated: the pipeline's final assembly drops a
timestamp.  The reference (BTC) series carries timestamp 2, but the
combined table — whose row set the claim says is the union of all input
timestamps — has row set `[1]` only. -/
theorem c2_cex :
    combined_pipeline [exDf] ["KRAKEN"] [altDf1] ["ETH"] = .ok c2Out ∧
    btc_table [exDf] ["KRAKEN"] = .ok c2Btc ∧
    (2 : ℚ) ∈ (colSeriesD c2Btc ("avg_btc_price_usd")).keys ∧
    (2 : ℚ) ∉ c2Out.index := by
  refine ⟨?_, btc_table_exDf, by decide, by decide⟩
  simp [combined_pipeline, btc_table_exDf, avgS_of_c2Btc, convert_altDf1, merge_altConv1,
    setBTC_combC2, List.mapM, List.mapM.loop, Except.bind, Except.pure, bind, pure]

/-- Claim C1 (amended): the correlation computation of
Cryptocurrency-Pricing-Analysis.py — window filter, `pct_change()`, then
pairwise-complete Pearson — coincides, on windows whose columns are fully
defined, with Pearson applied to the spec's percentage-change transform
`r[t] = (v[t] - v[t-1]) / v[t-1]` (first row undefined); crypto-tutorial.py
computes the Pearson matrix on raw levels instead. -/
theorem c1_correlation_engine (df : DataFrame) (p : ℚ → Bool)
    (h : ∀ e ∈ (filterRows p df).cols, ∀ v ∈ e.2, v.isSome) :
    Analysis.correlate df p = dfCorr (dfSpecPctChange (filterRows p df)) ∧
    (∀ (v : Option ℚ) (vs : List (Option ℚ)),
       specPctChangeCol (v :: vs) = none :: diffStep v vs) := by
  constructor
  · unfold Analysis.correlate
    have hcols : (filterRows p df).cols.map (fun e => (e.1, pandasPctChangeCol e.2))
        = (filterRows p df).cols.map (fun e => (e.1, specPctChangeCol e.2)) := by
      apply List.map_congr_left
      intro e he
      have hf : ffill none e.2 = e.2 := ffill_of_all_some e.2 none (h e he)
      simp [pandasPctChangeCol, specPctChangeCol, hf]
    unfold dfPctChange dfSpecPctChange
    rw [hcols]
  · intro v vs
    cases v <;> rfl

/-- Witness for C1 on a fully defined window: the pandas path and the
spec's detrend-then-Pearson path agree on `Tc`. -/
theorem c1_witness :
    Analysis.correlate Tc (fun _ => true)
      = dfCorr (dfSpecPctChange (filterRows (fun _ => true) Tc)) ∧
    (∀ (v : Option ℚ) (vs : List (Option ℚ)),
       specPctChangeCol (v :: vs) = none :: diffStep v vs) :=
  c1_correlation_engine Tc (fun _ => true) (by decide)

/-- Counterexample to C1 as stated: on `Tc` — exponential raw levels with
constant returns — the tutorial's Correlation Engine yields DEFINED
Pearson cells while Pearson on the percentage-change series is undefined
in every cell (zero variance after detrending), so the tutorial engine
computed on raw levels, not on percentage changes. -/
theorem c1_cex :
    Tutorial.correlate Tc (fun _ => true)
      ≠ dfCorr (dfSpecPctChange (filterRows (fun _ => true) Tc)) ∧
    Tutorial.correlate Tc (fun _ => true) = dfCorr (filterRows (fun _ => true) Tc) := by
  have hfilter : filterRows (fun _ => true) Tc = Tc := by
    norm_num [filterRows, filterCol, Tc]
  constructor
  · have hraw : Tutorial.correlate Tc (fun _ => true)
        = [[some ((115 : ℚ)/4, (115 : ℚ)/4, (115 : ℚ)/4), some (109, (115 : ℚ)/4, 420)],
           [some (109, 420, (115 : ℚ)/4), some (420, 420, 420)]] := by
      show dfCorr (filterRows (fun _ => true) Tc) = _
      rw [hfilter]
      norm_num [dfCorr, Tc, pearsonStats, pairedObs]
    have hspec : dfCorr (dfSpecPctChange (filterRows (fun _ => true) Tc))
        = [[none, none], [none, none]] := by
      rw [hfilter]
      norm_num [dfCorr, dfSpecPctChange, specPctChangeCol, diffStep, Tc,
        pearsonStats, pairedObs]
    rw [hraw, hspec]
    simp
  · rfl

end Crypto
